import Mathlib

/-!
Shallow embedding of the kobyt2/common-services logging subsystem and
utility code, together with theorems settling the specification claims.

Conventions:
* Go byte strings are modelled as `List Nat` where each element is a byte
  value; Go `string` values used only as opaque identifiers (file names,
  config fields) are modelled as Lean `String`.
* Go `int64` durations (nanoseconds) and gorm log levels are modelled as `Int`.
* External collaborators (the OS filesystem, viper config reading, the bcrypt
  and AES libraries, base64) are modelled as explicit parameters or abstract
  structures carrying their documented contracts; the repository's own code is
  translated directly.
-/

namespace CommonServices

/-! ### zap severity levels (go.uber.org/zap/zapcore) -/

/-- The seven zapcore severities, in order, as used by `setupCores`. -/
inductive ZapLevel where
  | DebugLevel
  | InfoLevel
  | WarnLevel
  | ErrorLevel
  | DPanicLevel
  | PanicLevel
  | FatalLevel
deriving DecidableEq, BEq

/-- `zapcore.Level.String()`: lowercase level names, used in log file names. -/
def levelString : ZapLevel → String
  | .DebugLevel => "debug"
  | .InfoLevel => "info"
  | .WarnLevel => "warn"
  | .ErrorLevel => "error"
  | .DPanicLevel => "dpanic"
  | .PanicLevel => "panic"
  | .FatalLevel => "fatal"

/-- `zapcore.Level.CapitalString()`: all-caps level names. -/
def capitalString : ZapLevel → String
  | .DebugLevel => "DEBUG"
  | .InfoLevel => "INFO"
  | .WarnLevel => "WARN"
  | .ErrorLevel => "ERROR"
  | .DPanicLevel => "DPANIC"
  | .PanicLevel => "PANIC"
  | .FatalLevel => "FATAL"

/-- The ordered severity list built at the top of `setupCores`. -/
def levels : List ZapLevel :=
  [.DebugLevel, .InfoLevel, .WarnLevel, .ErrorLevel, .DPanicLevel, .PanicLevel, .FatalLevel]

/-! ### ZapConfig (the `zap` section of the configuration file) -/

/-- `ZapConfig` struct from the source (field for field). -/
structure ZapConfig where
  Level : String
  Prefix : String
  Format : String
  Director : String
  EncodeLevel : String
  StacktraceKey : String
  ShowLine : Bool
  LogInConsole : Bool
  RetentionDay : Int
  CustomLevelEncoder : Bool
deriving DecidableEq

/-- Which level-text renderer `(*ZapConfig).LevelEncoder` selects: either the
repository's own bracketed closure (`customBracketed`, whose rendering is
`customBracketedRender` below) or one of the four built-in zapcore encoders. -/
inductive LevelEncKind where
  | customBracketed
  | lowercase
  | capital
  | lowercaseColor
  | capitalColor
deriving DecidableEq

/-- `(*ZapConfig).LevelEncoder`: the boolean `CustomLevelEncoder` override takes
precedence; otherwise the Go `switch` on `EncodeLevel` (an if-chain), with
`CapitalLevelEncoder` as the default branch. -/
def LevelEncoder (c : ZapConfig) : LevelEncKind :=
  if c.CustomLevelEncoder then .customBracketed
  else if c.EncodeLevel = "lowercase" then .lowercase
  else if c.EncodeLevel = "capital" then .capital
  else if c.EncodeLevel = "lowercaseColor" then .lowercaseColor
  else if c.EncodeLevel = "capitalColor" then .capitalColor
  else .capital

/-- The custom closure returned when `CustomLevelEncoder` is set:
`enc.AppendString(fmt.Sprintf("[%s]", level.CapitalString()))`. -/
def customBracketedRender (level : ZapLevel) : String :=
  "[" ++ capitalString level ++ "]"

/-- A wall-clock instant, as the fields Go's formatting of layout
`"2006-01-02 15:04:05.000"` consumes (nanoseconds within the second). -/
structure GoTime where
  year : Nat
  month : Nat
  day : Nat
  hour : Nat
  minute : Nat
  second : Nat
  nanos : Nat
deriving DecidableEq

/-- Zero-pad to two digits (Go layout components `01`, `02`, `15`, `04`, `05`). -/
def pad2 (n : Nat) : String :=
  if n < 10 then "0" ++ toString n else toString n

/-- Zero-pad to three digits (Go layout component `.000`, milliseconds). -/
def pad3 (n : Nat) : String :=
  if n < 10 then "00" ++ toString n
  else if n < 100 then "0" ++ toString n
  else toString n

/-- Four-digit year (Go layout component `2006`). -/
def pad4 (n : Nat) : String :=
  if n < 10 then "000" ++ toString n
  else if n < 100 then "00" ++ toString n
  else if n < 1000 then "0" ++ toString n
  else toString n

/-- Go's `t.Format("2006-01-02 15:04:05.000")`: the fixed layout with
millisecond precision (nanoseconds truncated to milliseconds). -/
def FormatDateTime (t : GoTime) : String :=
  pad4 t.year ++ "-" ++ pad2 t.month ++ "-" ++ pad2 t.day ++ " " ++
    pad2 t.hour ++ ":" ++ pad2 t.minute ++ ":" ++ pad2 t.second ++ "." ++
    pad3 (t.nanos / 1000000)

/-- `(*ZapConfig).TimeEncoder`: appends `t.Format("2006-01-02 15:04:05.000")`,
ignoring every configuration field. -/
def TimeEncoder (_c : ZapConfig) (t : GoTime) : String :=
  FormatDateTime t

/-! ### Level router (`setupCores`, `getLogWriter`) -/

/-- Output serialization chosen once per `setupCores` call from `cfg.Format`. -/
inductive EncoderKind where
  | json
  | console
deriving DecidableEq

/-- The `lumberjack.Logger` rotation policy built by `getLogWriter`
(part_002 variant). -/
structure LumberjackPolicy where
  MaxSize : Int
  MaxBackups : Int
  MaxAge : Int
  Compress : Bool
deriving DecidableEq

/-- One per-severity sink: the `zapcore.NewCore(encoder, writer, enabler)`
built in the `setupCores` loop. `enabled` is the `LevelEnablerFunc` closure;
`file` and `policy` describe the writer. -/
structure Core where
  level : ZapLevel
  enabled : ZapLevel → Bool
  encoder : EncoderKind
  file : String
  policy : Option LumberjackPolicy

/-- `zapcore.NewTee` dispatch: a write at level `e` reaches every core whose
enabler accepts `e`; we record the bound severities of those cores. -/
def teeDispatch (cores : List Core) (e : ZapLevel) : List ZapLevel :=
  (cores.filter (fun c => c.enabled e)).map Core.level

namespace LoggerV2

/-- `getLogWriter` (part_002 variant): hourly-timestamped file name inside
`cfg.Director`, wrapped in a lumberjack rotating writer.  The Go function's
error result is always `nil` (lumberjack opens files lazily), so the model is
total. `ts` is `time.Now().Format("2006010215")`. -/
def getLogWriter (cfg : ZapConfig) (ts : String) (level : String) : String × LumberjackPolicy :=
  (cfg.Director ++ "/" ++ level ++ "_" ++ ts ++ ".log",
   { MaxSize := 1, MaxBackups := 24, MaxAge := cfg.RetentionDay, Compress := true })

/-- `setupCores` (part_002 variant): one core per severity in `levels`, each
gated by the exact-match closure `func(lvl) bool { return lvl == level }`,
sharing one encoder chosen from `cfg.Format`.  Since `getLogWriter` never
fails here, the error branch of the loop is dead and the result is total. -/
def setupCores (cfg : ZapConfig) (ts : String) : List Core :=
  levels.map (fun level =>
    let w := getLogWriter cfg ts (levelString level)
    { level := level
      enabled := fun lvl => lvl == level
      encoder := if cfg.Format = "json" then .json else .console
      file := w.1
      policy := some w.2 })

end LoggerV2

/-! ### Persistence trace adapter (`GormLogger`, part_002) -/

/-- gorm's `logger.LogLevel` constants (`Silent LogLevel = iota + 1`). -/
def gormSilent : Int := 1

/-- gorm `logger.Error` level. -/
def gormError : Int := 2

/-- gorm `logger.Warn` level. -/
def gormWarn : Int := 3

/-- gorm `logger.Info` level. -/
def gormInfo : Int := 4

/-- gorm's `logger.Config` as populated by this adapter.  `SlowThreshold` is a
`time.Duration` in nanoseconds. -/
structure GormConfig where
  SlowThreshold : Int
  LogLevel : Int
  IgnoreRecordNotFoundError : Bool
  Colorful : Bool
deriving DecidableEq

/-- `GormLogger` struct.  The wrapped `*zap.Logger` only receives the emitted
entries; the model records the emission severity instead of the pointer. -/
structure GormLogger where
  config : GormConfig
deriving DecidableEq

/-- `NewGormLogger`: 200ms slow threshold, Warn level, record-not-found errors
not ignored, colors disabled.  (The Go function also panics when handed a nil
`*zap.Logger`; the model takes no logger argument.) -/
def NewGormLogger : GormLogger :=
  { config :=
    { SlowThreshold := 200000000
      LogLevel := gormWarn
      IgnoreRecordNotFoundError := false
      Colorful := false } }

/-- The error argument handed to `Trace` by gorm: either the dedicated
record-not-found condition (`gorm.ErrRecordNotFound`) or any other error. -/
inductive GormErr where
  | recordNotFound
  | other
deriving DecidableEq

/-- Observable outcome of one `Trace` call: whether the deferred
`fc() (string, int64)` producer was invoked, and the severity of the entry
emitted through the zap logger (if any). -/
structure TraceResult where
  producerInvoked : Bool
  emitted : Option ZapLevel
deriving DecidableEq

/-- `(GormLogger).Trace`, translated line by line.  `beginNs`/`nowNs` model
`begin` and `time.Now()` in nanoseconds, so `elapsed = nowNs - beginNs` is
`time.Since(begin)`.  The producer `fc` is invoked (for `sql, rows`) on every
path inside the `LogLevel > 0` gate, before the classification branch. -/
def Trace (l : GormLogger) (beginNs nowNs : Int) (err : Option GormErr) : TraceResult :=
  if l.config.LogLevel > 0 then
    let elapsed := nowNs - beginNs
    if err.isSome then
      { producerInvoked := true, emitted := some .ErrorLevel }
    else if elapsed > l.config.SlowThreshold ∧ l.config.SlowThreshold ≠ 0 then
      { producerInvoked := true, emitted := some .WarnLevel }
    else
      { producerInvoked := true, emitted := some .DebugLevel }
  else
    { producerInvoked := false, emitted := none }

/-- Claim C2 verbatim: for every `Trace` call that reaches the emission step,
(a) a non-nil error is emitted at Error severity; (b) otherwise a slow query
(elapsed above a non-zero threshold) is emitted at Warn *provided the
adapter's level permits Warn*; (c) otherwise at Debug. -/
def traceClaimC2 (l : GormLogger) (beginNs nowNs : Int) (err : Option GormErr) : Prop :=
  l.config.LogLevel > 0 →
    (err.isSome = true → (Trace l beginNs nowNs err).emitted = some .ErrorLevel)
    ∧ (err = none → nowNs - beginNs > l.config.SlowThreshold →
        l.config.SlowThreshold ≠ 0 → l.config.LogLevel ≥ gormWarn →
        (Trace l beginNs nowNs err).emitted = some .WarnLevel)
    ∧ (err = none →
        ¬(nowNs - beginNs > l.config.SlowThreshold ∧ l.config.SlowThreshold ≠ 0
            ∧ l.config.LogLevel ≥ gormWarn) →
        (Trace l beginNs nowNs err).emitted = some .DebugLevel)

/-! ### Logger facade (`InitLogger` and globals) -/

/-- The state of the configuration file that `viper.SetConfigFile` points at,
as the initialization code can observe it:
absent, present but unreadable, present but unparseable, or well-formed
(with `decodable` recording whether `viper.UnmarshalKey("zap", ...)` can
decode its `zap` section into a `ZapConfig`). -/
inductive ConfigSource where
  | missing
  | unreadable
  | malformed
  | wellFormed (decodable : Bool) (cfg : ZapConfig)

/-- `viper.ReadInConfig()`: errors when the file is absent, unreadable or
unparseable; the error value does not distinguish the three causes. -/
def readInConfig : ConfigSource → Except String Unit
  | .missing => .error "Config File Not Found"
  | .unreadable => .error "permission denied"
  | .malformed => .error "While parsing config"
  | .wellFormed _ _ => .ok ()

/-- `viper.UnmarshalKey("zap", &zapConfig)`: only reached after a successful
read; fails exactly when the parsed file does not decode into `ZapConfig`. -/
def unmarshalKey : ConfigSource → Except String ZapConfig
  | .wellFormed true cfg => .ok cfg
  | .wellFormed false _ => .error "error unmarshalling config to struct"
  | _ => .error "no parsed config"

/-- The OS filesystem as the initialization code consults it:
`os.Stat` existence checks, `os.Mkdir` outcomes, and `os.OpenFile` outcomes
(the latter used only by the fixed-name logger variant). -/
structure FileSys where
  pathExists : String → Bool
  mkdirOk : String → Bool
  openOk : String → Bool

/-- The built `*zap.Logger`: the teed cores plus whether
`zap.AddCallerSkip(1)` was applied. -/
structure LoggerHandle where
  cores : List Core
  callerSkip : Bool

/-- The package globals `Logger` and `SugaredLogger` (both nil before a
successful initialization, both assigned together on success). -/
structure LoggerState where
  Logger : Option LoggerHandle
  SugaredLogger : Option LoggerHandle

/-- `getDefaultConfig` (part_002): the hard-coded fallback configuration.
`CustomLevelEncoder` is left at its Go zero value `false`. -/
def getDefaultConfig : ZapConfig :=
  { Level := "info"
    Prefix := "[LOGGER]"
    Format := "json"
    Director := "./logs"
    EncodeLevel := "capital"
    StacktraceKey := "stacktrace"
    ShowLine := true
    LogInConsole := true
    RetentionDay := 7
    CustomLevelEncoder := false }

namespace LoggerV2

/-- `InitLogger` (part_002): on any `viper.ReadInConfig` failure, build and
install a logger from `getDefaultConfig` (without `AddCallerSkip`); on decode
failure return a hard error; otherwise ensure the directory exists (creating
it if needed), build the cores and install the logger with
`zap.AddCallerSkip(1)`.  Returns the updated globals and the error result. -/
def InitLogger (fs : FileSys) (ts : String) (src : ConfigSource) (st : LoggerState) :
    LoggerState × Except String Unit :=
  match readInConfig src with
  | .error _ =>
      let defaultConfig := getDefaultConfig
      let handle : LoggerHandle := { cores := setupCores defaultConfig ts, callerSkip := false }
      ({ Logger := some handle, SugaredLogger := some handle }, .ok ())
  | .ok _ =>
      match unmarshalKey src with
      | .error e => (st, .error e)
      | .ok zapConfig =>
          let handle : LoggerHandle := { cores := setupCores zapConfig ts, callerSkip := true }
          let installed : LoggerState × Except String Unit :=
            ({ Logger := some handle, SugaredLogger := some handle }, .ok ())
          if fs.pathExists zapConfig.Director then installed
          else if fs.mkdirOk zapConfig.Director then installed
          else (st, .error ("failed to create directory " ++ zapConfig.Director))

end LoggerV2

namespace LoggerV1

/-- `getLogWriter` (src/logger/logger.go): opens `Director/<filename>` for
append, failing when the OS open fails; no rotation policy is attached. -/
def getLogWriter (fs : FileSys) (cfg : ZapConfig) (filename : String) :
    Except String String :=
  let fp := cfg.Director ++ "/" ++ filename
  if fs.openOk fp then .ok fp else .error ("open " ++ fp)

/-- The `setupCores` loop body (src/logger/logger.go) over the remaining
severities: stops at the first `getLogWriter` failure, wrapping its error. -/
def buildCores (fs : FileSys) (cfg : ZapConfig) : List ZapLevel → Except String (List Core)
  | [] => .ok []
  | level :: rest =>
      match getLogWriter fs cfg (levelString level ++ ".log") with
      | .error e => .error ("failed to create log file for level " ++ levelString level ++ ": " ++ e)
      | .ok fp =>
          match buildCores fs cfg rest with
          | .error e => .error e
          | .ok cores =>
              .ok ({ level := level
                     enabled := fun lvl => lvl == level
                     encoder := if cfg.Format = "json" then .json else .console
                     file := fp
                     policy := none } :: cores)

/-- `setupCores` (src/logger/logger.go): fixed-name `<level>.log` files, one
exact-match core per severity, or the first file-creation error. -/
def setupCores (fs : FileSys) (cfg : ZapConfig) : Except String (List Core) :=
  buildCores fs cfg levels

/-- `InitLogger` (src/logger/logger.go): no fallback — a read failure is a
hard error; then decode, ensure the directory, build the cores (which may
fail on file creation) and only on full success assign the globals. -/
def InitLogger (fs : FileSys) (src : ConfigSource) (st : LoggerState) :
    LoggerState × Except String Unit :=
  match readInConfig src with
  | .error e => (st, .error ("error reading config file: " ++ e))
  | .ok _ =>
      match unmarshalKey src with
      | .error e => (st, .error e)
      | .ok zapConfig =>
          let afterDir : Except String Unit :=
            if fs.pathExists zapConfig.Director then .ok ()
            else if fs.mkdirOk zapConfig.Director then .ok ()
            else .error ("failed to create directory " ++ zapConfig.Director)
          match afterDir with
          | .error e => (st, .error e)
          | .ok _ =>
              match setupCores fs zapConfig with
              | .error e => (st, .error e)
              | .ok cores =>
                  let handle : LoggerHandle := { cores := cores, callerSkip := false }
                  ({ Logger := some handle, SugaredLogger := some handle }, .ok ())

end LoggerV1

/-! ### Password hashing wrapper (part_000, package utils)

The wrapper calls `golang.org/x/crypto/bcrypt`; the library is external, so it
is modelled as an abstract structure carrying its documented contract: a hash
produced by `GenerateFromPassword` verifies against the same password. -/

/-- Abstract bcrypt library.  Byte slices are `List Nat`.
`compare_generated` is the library's documented round-trip contract. -/
structure BcryptLib where
  generateFromPassword : List Nat → Nat → Except String (List Nat)
  compareHashAndPassword : List Nat → List Nat → Except String Unit
  compare_generated : ∀ pw cost hash,
    generateFromPassword pw cost = .ok hash → compareHashAndPassword hash pw = .ok ()

/-- `bcrypt.DefaultCost`. -/
def DefaultCost : Nat := 10

/-- `GenerateFromPassword` (part_000): hash with the default cost, forwarding
the library error (with an empty-string hash) on failure. -/
def GenerateFromPassword (b : BcryptLib) (password : List Nat) : Except String (List Nat) :=
  match b.generateFromPassword password DefaultCost with
  | .error e => .error e
  | .ok hashedPassword => .ok hashedPassword

/-- `CompareHashAndPassword` (part_000): `err == nil` mapped to a boolean —
the wrapper never propagates an error. -/
def CompareHashAndPassword (b : BcryptLib) (hashedPassword password : List Nat) : Bool :=
  match b.compareHashAndPassword hashedPassword password with
  | .ok _ => true
  | .error _ => false

/-! ### AES-ECB utility (src/utils/aes/ecb.go)

The AES block primitive (`crypto/aes`) and base64 (`encoding/base64`) are
external; they are modelled as abstract structures with their documented
contracts (a 16-byte block permutation and a lossless byte-string codec).
The repository's padding, the ECB block loops and the trailing-NUL strip are
translated directly.  The base64 text output is kept as the byte string it
encodes (`List Nat`), which the codec contract makes lossless. -/

/-- Abstract 16-byte block cipher (`cipher.Block` obtained from
`aes.NewCipher`): encryption preserves the block size and decryption inverts
encryption on full blocks. -/
structure BlockCipher where
  encryptBlock : List Nat → List Nat
  decryptBlock : List Nat → List Nat
  encrypt_length : ∀ b, b.length = 16 → (encryptBlock b).length = 16
  decrypt_encrypt : ∀ b, b.length = 16 → decryptBlock (encryptBlock b) = b

/-- Abstract `base64.StdEncoding`: decoding inverts encoding. -/
structure Base64 where
  encode : List Nat → List Nat
  decode : List Nat → List Nat
  decode_encode : ∀ bs, decode (encode bs) = bs

/-- `addTo16`: pad with `16 - len%16` NUL bytes (so 1 to 16 of them) up to a
multiple of the block size. -/
def addTo16 (text : List Nat) : List Nat :=
  text ++ List.replicate (16 - text.length % 16) 0

/-- The ECB block loop
`for bs, be := 0, 16; bs < len; bs, be = bs+16, be+16 { f(dst, src[bs:be]) }`,
applied to inputs whose length is a multiple of 16 (as all call sites
guarantee; on other lengths the Go loop would panic slicing past the end).
`fuel` bounds the iteration count; callers pass the input length, which
always suffices since each step consumes at least one element. -/
def ecbGo (f : List Nat → List Nat) : Nat → List Nat → List Nat
  | _, [] => []
  | 0, _ :: _ => []
  | fuel + 1, a :: rest => f ((a :: rest).take 16) ++ ecbGo f fuel ((a :: rest).drop 16)

/-- The ECB loop over a whole buffer. -/
def ecbBlocks (f : List Nat → List Nat) (l : List Nat) : List Nat :=
  ecbGo f l.length l

/-- `strings.TrimRight(s, "\x00")`: drop every trailing NUL byte. -/
def trimRightNul (l : List Nat) : List Nat :=
  (l.reverse.dropWhile (fun b => b == 0)).reverse

/-- `(*CryptoDB).Encrypt`: NUL-pad to a block multiple, encrypt block by
block, base64-encode. -/
def Encrypt (c : BlockCipher) (b64 : Base64) (text : List Nat) : List Nat :=
  let paddedText := addTo16 text
  b64.encode (ecbBlocks c.encryptBlock paddedText)

/-- `(*CryptoDB).Decrypt`: base64-decode, decrypt block by block, strip the
trailing NUL padding. -/
def Decrypt (c : BlockCipher) (b64 : Base64) (text : List Nat) : List Nat :=
  let decoded := b64.decode text
  trimRightNul (ecbBlocks c.decryptBlock decoded)

/-! ### Helper lemmas for the ECB round-trip -/

/-- Fuel irrelevance: any fuel bound at least the input length computes the
same ECB result. -/
theorem ecbGo_fuel (f : List Nat → List Nat) :
    ∀ (n m : Nat) (l : List Nat), l.length ≤ n → l.length ≤ m →
      ecbGo f n l = ecbGo f m l := by
  intro n
  induction n with
  | zero =>
      intro m l hn _
      have hl : l = [] := List.eq_nil_of_length_eq_zero (Nat.le_zero.mp hn)
      subst hl
      cases m <;> rfl
  | succ n ih =>
      intro m l hn hm
      cases l with
      | nil => cases m <;> rfl
      | cons a rest =>
          cases m with
          | zero => simp at hm
          | succ m =>
              simp only [ecbGo]
              congr 1
              have hd : ((a :: rest).drop 16).length = (rest.length + 1) - 16 := by
                rw [List.length_drop]; rfl
              have hn' : rest.length + 1 ≤ n + 1 := by simpa using hn
              have hm' : rest.length + 1 ≤ m + 1 := by simpa using hm
              exact ih m _ (by rw [hd]; omega) (by rw [hd]; omega)

/-- Unfolding equation for the ECB loop on a nonempty buffer. -/
theorem ecbBlocks_eq (f : List Nat → List Nat) (l : List Nat) (h : l ≠ []) :
    ecbBlocks f l = f (l.take 16) ++ ecbBlocks f (l.drop 16) := by
  cases l with
  | nil => exact absurd rfl h
  | cons a rest =>
      show ecbGo f (rest.length + 1) (a :: rest) = _
      simp only [ecbGo]
      congr 1
      have hd : ((a :: rest).drop 16).length = (rest.length + 1) - 16 := by
        rw [List.length_drop]; rfl
      exact ecbGo_fuel f rest.length _ _ (by rw [hd]; omega) (by rw [hd])

/-- Decrypting after encrypting block by block restores a buffer whose length
is a multiple of the block size. -/
theorem ecb_roundtrip (c : BlockCipher) :
    ∀ (n : Nat) (l : List Nat), l.length ≤ n → l.length % 16 = 0 →
      ecbBlocks c.decryptBlock (ecbBlocks c.encryptBlock l) = l := by
  intro n
  induction n with
  | zero =>
      intro l hlen _
      have hl : l = [] := List.eq_nil_of_length_eq_zero (Nat.le_zero.mp hlen)
      subst hl; rfl
  | succ n ih =>
      intro l hlen hmod
      by_cases hnil : l = []
      · subst hnil; rfl
      · have hpos : 0 < l.length := List.length_pos.mpr hnil
        have h16 : 16 ≤ l.length := by omega
        have htake : (l.take 16).length = 16 := by
          rw [List.length_take]; exact min_eq_left h16
        have hE : (c.encryptBlock (l.take 16)).length = 16 := c.encrypt_length _ htake
        have hEne : c.encryptBlock (l.take 16) ≠ [] := by
          intro h0; rw [h0] at hE; simp at hE
        rw [ecbBlocks_eq c.encryptBlock l hnil]
        rw [ecbBlocks_eq c.decryptBlock _
          (by intro hc; exact hEne (List.append_eq_nil.mp hc).1)]
        rw [List.take_left' hE, List.drop_left' hE, c.decrypt_encrypt _ htake,
          ih (l.drop 16) (by rw [List.length_drop]; omega)
            (by rw [List.length_drop]; omega)]
        exact List.take_append_drop 16 l

/-- Leading NUL bytes are removed wholesale by `dropWhile`. -/
theorem dropWhile_zeros (k : Nat) (l : List Nat) :
    (List.replicate k 0 ++ l).dropWhile (fun b => b == 0)
      = l.dropWhile (fun b => b == 0) := by
  induction k with
  | zero => rfl
  | succ k ih => simp only [List.replicate_succ, List.cons_append,
      List.dropWhile_cons, beq_self_eq_true, if_true, ih]

/-- Stripping trailing NULs erases appended NUL padding exactly. -/
theorem trimRightNul_append_replicate (t : List Nat) (k : Nat) :
    trimRightNul (t ++ List.replicate k 0) = trimRightNul t := by
  unfold trimRightNul
  rw [List.reverse_append, List.reverse_replicate, dropWhile_zeros]

/-- A byte string not ending in NUL is untouched by the trailing strip. -/
theorem trimRightNul_of_last_ne (t : List Nat) (h : t.getLast? ≠ some 0) :
    trimRightNul t = t := by
  unfold trimRightNul
  cases hrev : t.reverse with
  | nil =>
      have ht : t = [] := by
        have := congrArg List.reverse hrev
        simpa using this
      subst ht; rfl
  | cons a as =>
      have ha : t.getLast? = some a := by
        rw [← List.head?_reverse, hrev]; rfl
      have hane : a ≠ 0 := by
        intro h0; exact h (by rw [ha, h0])
      have hfalse : (a == 0) = false := beq_eq_false_iff_ne.mpr hane
      rw [List.dropWhile_cons, hfalse]
      simp only [Bool.false_eq_true, if_false]
      rw [← hrev, List.reverse_reverse]

/-- The result of the trailing strip never ends in a NUL byte. -/
theorem trimRightNul_getLast_ne (t : List Nat) :
    (trimRightNul t).getLast? ≠ some 0 := by
  unfold trimRightNul
  intro hc
  rw [List.getLast?_reverse] at hc
  have hmatch := List.head?_dropWhile_not (fun b => b == 0) t.reverse
  rw [hc] at hmatch
  simp at hmatch

/-! ## Claim theorems -/

/-- C1: for every configured severity in the supported ordered set, the level
filter `setupCores` attaches to that severity's sink accepts an entry iff the
entry's level is exactly the sink's severity (exact match, not a minimum-level
threshold), so a tee write at level `e` is dispatched to exactly the sink
bound to `e` and to no other sink. -/
theorem setupCores_exact_match_routing (cfg : ZapConfig) (ts : String) (e : ZapLevel) :
    ((LoggerV2.setupCores cfg ts).map (fun c => (c.level, c.enabled e)))
      = levels.map (fun l => (l, e == l))
    ∧ teeDispatch (LoggerV2.setupCores cfg ts) e = [e] := by
  cases e <;> exact ⟨rfl, rfl⟩

/-- C2 counterexample: at adapter level Error (2, which does not permit Warn),
a slow, error-free query is still emitted at Warn, refuting the claim's
"and the adapter's level permits Warn" clause at this concrete input. -/
theorem traceClaimC2_false_at_error_level :
    ¬ traceClaimC2 ⟨⟨200, gormError, false, false⟩⟩ 0 300 none := by
  unfold traceClaimC2 Trace gormError gormWarn
  decide

/-- C2 (amended): for every `Trace` call that reaches the emission step
(configured level strictly positive), the producer is invoked and the entry is
classified as: Error when the error is non-nil, regardless of the threshold;
else Warn when the elapsed time strictly exceeds a non-zero slow threshold
(irrespective of whether the adapter's level permits Warn); else Debug. -/
theorem trace_classification (l : GormLogger) (beginNs nowNs : Int)
    (err : Option GormErr) (h : l.config.LogLevel > 0) :
    (Trace l beginNs nowNs err).producerInvoked = true
    ∧ (err.isSome = true → (Trace l beginNs nowNs err).emitted = some .ErrorLevel)
    ∧ (err = none → nowNs - beginNs > l.config.SlowThreshold →
        l.config.SlowThreshold ≠ 0 →
        (Trace l beginNs nowNs err).emitted = some .WarnLevel)
    ∧ (err = none →
        (nowNs - beginNs ≤ l.config.SlowThreshold ∨ l.config.SlowThreshold = 0) →
        (Trace l beginNs nowNs err).emitted = some .DebugLevel) := by
  unfold Trace
  rw [if_pos h]
  dsimp only
  refine ⟨?_, ?_, ?_, ?_⟩
  · split
    · rfl
    · split <;> rfl
  · intro hs
    rw [if_pos hs]
  · intro he hgt hne
    subst he
    rw [if_neg (by simp), if_pos ⟨hgt, hne⟩]
  · intro he hle
    subst he
    rw [if_neg (by simp), if_neg ?_]
    rcases hle with hle | hze
    · exact fun hc => absurd hc.1 (not_lt.mpr hle)
    · exact fun hc => hc.2 hze

/-- C2 witness: the default adapter (Warn level, 200ms threshold) emits a
300ms error-free query at Warn. -/
theorem trace_classification_witness :
    (Trace NewGormLogger 0 300000000 none).emitted = some .WarnLevel := by
  exact (trace_classification NewGormLogger 0 300000000 none (by decide)).2.2.1
    rfl (by decide) (by decide)

/-- C3: `Trace` never consults the `IgnoreRecordNotFoundError` knob — its
outcome is identical with the flag set or cleared — and with the flag set a
record-not-found error is still classified as an Error emission (the code
contradicts the setting's documented intent). -/
theorem trace_ignores_recordNotFound_flag :
    (∀ thr lv col beginNs nowNs err,
        Trace ⟨⟨thr, lv, true, col⟩⟩ beginNs nowNs err
          = Trace ⟨⟨thr, lv, false, col⟩⟩ beginNs nowNs err)
    ∧ (Trace ⟨⟨200000000, gormInfo, true, false⟩⟩ 0 50000000
        (some .recordNotFound)).emitted = some .ErrorLevel := by
  refine ⟨fun thr lv col beginNs nowNs err => rfl, ?_⟩
  unfold Trace gormInfo
  decide

/-- C4: at the Silent level (gorm's `Silent = 1`), `Trace` does not return
immediately: the gate is `LogLevel > 0`, so the producer is invoked and a
Debug entry is emitted, contradicting the claim that Silent suppresses the
trace before the producer is evaluated. -/
theorem trace_silent_level_still_traces :
    gormSilent = 1
    ∧ (Trace ⟨⟨200000000, gormSilent, false, false⟩⟩ 0 50000000
        none).producerInvoked = true
    ∧ (Trace ⟨⟨200000000, gormSilent, false, false⟩⟩ 0 50000000
        none).emitted = some .DebugLevel := by
  unfold Trace gormSilent
  decide

/-- C5: when the configuration file is missing or unreadable, initialization
succeeds, installing both global handles with a logger built from the
hard-coded default configuration: info level, JSON format, `./logs`
directory, capital level text, 7-day retention (threaded into every sink's
rotation policy) and console mirroring enabled. -/
theorem initLogger_fallback_defaults (fs : FileSys) (ts : String) (st : LoggerState) :
    ((LoggerV2.InitLogger fs ts .missing st).2 = .ok ()
      ∧ (LoggerV2.InitLogger fs ts .unreadable st).2 = .ok ())
    ∧ (∃ handle, (LoggerV2.InitLogger fs ts .missing st).1.Logger = some handle
        ∧ (LoggerV2.InitLogger fs ts .missing st).1.SugaredLogger = some handle
        ∧ handle.cores = LoggerV2.setupCores getDefaultConfig ts)
    ∧ getDefaultConfig.Level = "info"
    ∧ getDefaultConfig.Format = "json"
    ∧ getDefaultConfig.Director = "./logs"
    ∧ LevelEncoder getDefaultConfig = .capital
    ∧ getDefaultConfig.RetentionDay = 7
    ∧ getDefaultConfig.LogInConsole = true
    ∧ (LoggerV2.setupCores getDefaultConfig ts).map (fun c => c.policy)
        = List.replicate 7 (some ⟨1, 24, 7, true⟩) := by
  refine ⟨⟨rfl, rfl⟩, ⟨_, rfl, rfl, rfl⟩, rfl, rfl, rfl, by decide, rfl, rfl, rfl⟩

/-- C6 counterexample: a present but malformed (unparseable) configuration
file does not produce a hard error — initialization succeeds and installs the
fallback logger, refuting the claim that only absence triggers the fallback. -/
theorem initLogger_malformed_falls_back :
    (LoggerV2.InitLogger ⟨fun _ => true, fun _ => true, fun _ => true⟩
        "2025010100" .malformed ⟨none, none⟩).2 = .ok ()
    ∧ ((LoggerV2.InitLogger ⟨fun _ => true, fun _ => true, fun _ => true⟩
        "2025010100" .malformed ⟨none, none⟩).1.Logger).isSome = true :=
  ⟨rfl, rfl⟩

/-- C6 (amended): any configuration-read failure — absent, unreadable, or
present-but-unparseable — triggers the fallback default logger; only a file
that parses but fails to decode into the settings record causes a hard
initialization error with the globals left untouched. -/
theorem initLogger_read_vs_decode_failure (fs : FileSys) (ts : String)
    (st : LoggerState) (cfg : ZapConfig) :
    ((LoggerV2.InitLogger fs ts .malformed st).2 = .ok ()
      ∧ ((LoggerV2.InitLogger fs ts .malformed st).1.Logger).isSome = true
      ∧ (LoggerV2.InitLogger fs ts .unreadable st).2 = .ok ()
      ∧ (LoggerV2.InitLogger fs ts .missing st).2 = .ok ())
    ∧ LoggerV2.InitLogger fs ts (.wellFormed false cfg) st
        = (st, .error "error unmarshalling config to struct") :=
  ⟨⟨rfl, rfl, rfl, rfl⟩, rfl⟩

/-- C7: if building any single per-severity sink fails, initialization fails
atomically — the call returns that error and the global `Logger` and
`SugaredLogger` handles are left exactly as they were — both in the
fixed-name variant (where file creation can fail) and, for a directory
creation failure, in the timestamped variant. -/
theorem init_atomic_on_sink_failure (fs : FileSys) (cfg : ZapConfig)
    (st : LoggerState) (e : String)
    (hdir : fs.pathExists cfg.Director = true)
    (hfail : LoggerV1.setupCores fs cfg = .error e) :
    LoggerV1.InitLogger fs (.wellFormed true cfg) st = (st, .error e)
    ∧ ∀ (ts : String) (cfg2 : ZapConfig) (st2 : LoggerState),
        fs.pathExists cfg2.Director = false → fs.mkdirOk cfg2.Director = false →
        LoggerV2.InitLogger fs ts (.wellFormed true cfg2) st2
          = (st2, .error ("failed to create directory " ++ cfg2.Director)) := by
  constructor
  · unfold LoggerV1.InitLogger
    simp only [readInConfig, unmarshalKey, hdir, if_true, hfail]
  · intro ts cfg2 st2 h1 h2
    unfold LoggerV2.InitLogger
    simp only [readInConfig, unmarshalKey, h1, h2, Bool.false_eq_true, if_false]

/-- A filesystem on which only the warn-level log file cannot be created. -/
def fsWarnFails : FileSys :=
  ⟨fun p => p == "./logs", fun _ => false, fun p => !(p == "./logs/warn.log")⟩

/-- C7 witness: with only the warn sink's file uncreatable, initialization of
the fixed-name variant returns the sink error and leaves the globals nil. -/
theorem init_atomic_on_sink_failure_witness :
    LoggerV1.InitLogger fsWarnFails (.wellFormed true getDefaultConfig) ⟨none, none⟩
      = (⟨none, none⟩,
        .error "failed to create log file for level warn: open ./logs/warn.log") := by
  exact (init_atomic_on_sink_failure fsWarnFails getDefaultConfig ⟨none, none⟩ _
    (by decide) rfl).1

/-- C8: the bracketed `[LEVEL]` (capitalized) renderer is selected whenever
the custom-level-encoder override is set, regardless of the named style; when
it is unset the renderer is the one named by encode-level, with capital as
the default for any other value; and the timestamp renderer always uses the
fixed layout `YYYY-MM-DD HH:MM:SS.mmm` with millisecond precision, ignoring
the configuration entirely. -/
theorem levelEncoder_timeEncoder_spec (c : ZapConfig) :
    (c.CustomLevelEncoder = true → LevelEncoder c = .customBracketed)
    ∧ levels.map customBracketedRender
        = ["[DEBUG]", "[INFO]", "[WARN]", "[ERROR]", "[DPANIC]", "[PANIC]", "[FATAL]"]
    ∧ (c.CustomLevelEncoder = false →
        (c.EncodeLevel = "lowercase" → LevelEncoder c = .lowercase)
        ∧ (c.EncodeLevel = "capital" → LevelEncoder c = .capital)
        ∧ (c.EncodeLevel = "lowercaseColor" → LevelEncoder c = .lowercaseColor)
        ∧ (c.EncodeLevel = "capitalColor" → LevelEncoder c = .capitalColor)
        ∧ (c.EncodeLevel ≠ "lowercase" → c.EncodeLevel ≠ "capital" →
            c.EncodeLevel ≠ "lowercaseColor" → c.EncodeLevel ≠ "capitalColor" →
            LevelEncoder c = .capital))
    ∧ (∀ t, TimeEncoder c t = FormatDateTime t)
    ∧ (∀ t u : GoTime, t.year = u.year → t.month = u.month → t.day = u.day →
        t.hour = u.hour → t.minute = u.minute → t.second = u.second →
        t.nanos / 1000000 = u.nanos / 1000000 → TimeEncoder c t = TimeEncoder c u) := by
  refine ⟨?_, by decide, ?_, fun t => rfl, ?_⟩
  · intro h
    simp [LevelEncoder, h]
  · intro h
    refine ⟨?_, ?_, ?_, ?_, ?_⟩ <;> intro h1
    · simp [LevelEncoder, h, h1]
    · simp [LevelEncoder, h, h1]
    · simp [LevelEncoder, h, h1]
    · simp [LevelEncoder, h, h1]
    · intro h2 h3 h4
      simp [LevelEncoder, h, h1, h2, h3, h4]
  · intro t u e1 e2 e3 e4 e5 e6 e7
    unfold TimeEncoder FormatDateTime
    rw [e1, e2, e3, e4, e5, e6, e7]

/-- C8 witness: the override takes precedence over a configured named style,
and an unrecognized encode-level falls back to the capital renderer. -/
theorem levelEncoder_timeEncoder_spec_witness :
    LevelEncoder ⟨"", "", "", "", "lowercase", "", false, false, 0, true⟩
      = .customBracketed
    ∧ LevelEncoder ⟨"", "", "", "", "weird", "", false, false, 0, false⟩
      = .capital := by
  refine ⟨(levelEncoder_timeEncoder_spec _).1 rfl, ?_⟩
  exact (((levelEncoder_timeEncoder_spec _).2.2.1 rfl).2.2.2.2)
    (by decide) (by decide) (by decide) (by decide)

/-- C9: for every password whose hashing succeeds, comparing the produced
hash against the same password returns `true`; and for any hash/password
pair the library does not verify, the wrapper returns `false` (it is a total
boolean — no error escapes).  Stated relative to the bcrypt library
contract carried by `BcryptLib`. -/
theorem password_hash_roundtrip (b : BcryptLib) (password hash : List Nat)
    (h : GenerateFromPassword b password = .ok hash) :
    CompareHashAndPassword b hash password = true
    ∧ ∀ h2 p2, b.compareHashAndPassword h2 p2 ≠ .ok () →
        CompareHashAndPassword b h2 p2 = false := by
  constructor
  · have hg : b.generateFromPassword password DefaultCost = .ok hash := by
      unfold GenerateFromPassword at h
      split at h
      · exact absurd h (by simp)
      · rename_i v hv
        rw [hv]
        exact h
    unfold CompareHashAndPassword
    rw [b.compare_generated password DefaultCost hash hg]
  · intro h2 p2 hne
    unfold CompareHashAndPassword
    cases hc : b.compareHashAndPassword h2 p2 with
    | ok u => cases u; exact absurd hc hne
    | error e => rfl

/-- A concrete instance of the bcrypt contract for evaluation. -/
def toyBcrypt : BcryptLib where
  generateFromPassword := fun pw _ => .ok pw
  compareHashAndPassword := fun hash pw =>
    if hash = pw then .ok () else .error "mismatched hash and password"
  compare_generated := by
    intro pw cost hash h
    injection h with h'
    subst h'
    simp

/-- C9 witness: a generated hash verifies and a mismatched pair yields
`false`. -/
theorem password_hash_roundtrip_witness :
    CompareHashAndPassword toyBcrypt [1, 2, 3] [1, 2, 3] = true
    ∧ CompareHashAndPassword toyBcrypt [9] [8] = false := by
  have h := password_hash_roundtrip toyBcrypt [1, 2, 3] [1, 2, 3] rfl
  exact ⟨h.1, h.2 [9] [8] (by simp [toyBcrypt])⟩

/-- C10: `Encrypt` pads its input with 1 to 16 NUL bytes up to a multiple of
the 16-byte block size; decrypting an encryption yields the plaintext with
every trailing NUL stripped, hence exactly the original plaintext when it
does not end in NUL, and never the original when it does.  Stated relative
to the block-cipher and base64 contracts. -/
theorem aes_ecb_nul_padding_roundtrip (c : BlockCipher) (b64 : Base64)
    (text : List Nat) :
    (addTo16 text = text ++ List.replicate (16 - text.length % 16) 0
      ∧ 1 ≤ 16 - text.length % 16
      ∧ 16 - text.length % 16 ≤ 16
      ∧ (addTo16 text).length % 16 = 0)
    ∧ Decrypt c b64 (Encrypt c b64 text) = trimRightNul text
    ∧ (text.getLast? ≠ some 0 → Decrypt c b64 (Encrypt c b64 text) = text)
    ∧ (text.getLast? = some 0 → Decrypt c b64 (Encrypt c b64 text) ≠ text) := by
  have hmodlt : text.length % 16 < 16 := Nat.mod_lt _ (by omega)
  have hlen : (addTo16 text).length % 16 = 0 := by
    unfold addTo16
    rw [List.length_append, List.length_replicate]
    omega
  have hkey : Decrypt c b64 (Encrypt c b64 text) = trimRightNul text := by
    unfold Encrypt Decrypt
    rw [b64.decode_encode]
    show trimRightNul (ecbBlocks c.decryptBlock (ecbBlocks c.encryptBlock (addTo16 text)))
      = trimRightNul text
    rw [ecb_roundtrip c (addTo16 text).length (addTo16 text) le_rfl hlen]
    exact trimRightNul_append_replicate text _
  refine ⟨⟨rfl, by omega, by omega, hlen⟩, hkey, ?_, ?_⟩
  · intro hne
    rw [hkey]
    exact trimRightNul_of_last_ne text hne
  · intro h0 hc
    rw [hkey] at hc
    exact trimRightNul_getLast_ne text (by rw [hc]; exact h0)

/-- The identity instance of the block-cipher contract, for evaluation. -/
def idCipher : BlockCipher :=
  { encryptBlock := fun b => b
    decryptBlock := fun b => b
    encrypt_length := fun _ h => h
    decrypt_encrypt := fun _ _ => rfl }

/-- The identity instance of the base64 contract, for evaluation. -/
def idBase64 : Base64 :=
  { encode := fun bs => bs
    decode := fun bs => bs
    decode_encode := fun _ => rfl }

/-- C10 witness: a plaintext with no trailing NUL round-trips exactly; one
ending in NUL does not. -/
theorem aes_ecb_nul_padding_roundtrip_witness :
    Decrypt idCipher idBase64 (Encrypt idCipher idBase64 [1, 2, 3]) = [1, 2, 3]
    ∧ Decrypt idCipher idBase64 (Encrypt idCipher idBase64 [5, 0]) ≠ [5, 0] := by
  exact ⟨(aes_ecb_nul_padding_roundtrip idCipher idBase64 [1, 2, 3]).2.2.1 (by decide),
    (aes_ecb_nul_padding_roundtrip idCipher idBase64 [5, 0]).2.2.2 (by decide)⟩

end CommonServices
